/-
  Verification of the DeWarmte Home Assistant integration core against its
  natural-language specification.

  The definitions below are a shallow embedding of the Python source:
  - `custom_components/dewarmte/api/auth.py`       (token store / authenticator)
  - `custom_components/dewarmte/api/models/status_data.py` (status parser)
  - `custom_components/dewarmte/api/models/settings_group.py` (settings groups)
  plus, for parts of the repository that are only visible through their tests
  and callers (the retrying request executor `_get_with_retry`, the
  `SETTING_GROUPS` registry-based settings updater, and type-filtering device
  discovery), definitions modelled from the specification text, marked
  `Modelled from the spec:` in their doc comments.

  Machine integers do not occur; timestamps are modelled as `Int` seconds and
  numeric telemetry as `Rat` (Python's float parsing of short decimal strings
  is exact at every input used here).
-/
import Mathlib

namespace DeWarmte

/-! ## Token store / authenticator (from `api/auth.py`) -/

/-- Token lifetime in seconds: `DEFAULT_TOKEN_LIFETIME = timedelta(minutes=60)`. -/
def tokenLifetime : Int := 3600

/-- Proactive-refresh buffer in seconds: `REFRESH_BUFFER = timedelta(seconds=60)`. -/
def refreshBuffer : Int := 60

/-- The token-relevant state of `DeWarmteAuth`: `_access_token` and
`_token_issued_at` (seconds since epoch). -/
structure AuthState where
  accessToken : Option String
  tokenIssuedAt : Option Int
  deriving DecidableEq, Repr

/-- `DeWarmteAuth.needs_refresh(buffer_seconds)` evaluated at time `now`:
returns `True` when `_access_token` or `_token_issued_at` is `None`, else
compares `now >= issued_at + lifetime - buffer` where `buffer` defaults to
`REFRESH_BUFFER` when `buffer_seconds is None`. -/
def needsRefresh (st : AuthState) (bufferSeconds : Option Int) (now : Int) : Bool :=
  match st.accessToken, st.tokenIssuedAt with
  | some _, some issued =>
      decide (now ≥ issued + tokenLifetime - bufferSeconds.getD refreshBuffer)
  | _, _ => true

/-- `DeWarmteAuth.mark_expired()`: clears `_access_token` and `_token_issued_at`. -/
def markExpired (_st : AuthState) : AuthState :=
  { accessToken := none, tokenIssuedAt := none }

/-- Outcome of the login HTTP exchange inside `ensure_token`: either a response
with a status and an optional `access` field in the JSON body, or a raised
network exception. -/
inductive LoginOutcome where
  | response (status : Nat) (access : Option String)
  | netError
  deriving DecidableEq, Repr

/-- `DeWarmteAuth.ensure_token(force, buffer_seconds)` evaluated at time `now`,
with the network interaction abstracted as `outcome`.  Mirrors the source:
if not forced and no refresh is needed, return `True` without touching the
network; otherwise perform the login exchange; a non-200 status, a missing or
empty `access` field, or an exception each return `False` (the stored state is
not modified on any of these paths); on success store the token and
`issued_at = now` and return `True`. -/
def ensureToken (st : AuthState) (force : Bool) (bufferSeconds : Option Int)
    (now : Int) (outcome : LoginOutcome) : Bool × AuthState :=
  if !force && !needsRefresh st bufferSeconds now then
    (true, st)
  else
    match outcome with
    | .netError => (false, st)
    | .response status access =>
        if status ≠ 200 then (false, st)
        else
          match access with
          | none => (false, st)
          | some t =>
              -- `if not token:` — the empty string is falsy in Python
              if t = "" then (false, st)
              else (true, { accessToken := some t, tokenIssuedAt := some now })

/-- A login outcome on which `ensure_token` reports failure: non-200 status,
missing/empty `access` field, or a network exception. -/
def loginFails (outcome : LoginOutcome) : Prop :=
  match outcome with
  | .netError => True
  | .response status access =>
      status ≠ 200 ∨ access = none ∨ access = some ""

instance (outcome : LoginOutcome) : Decidable (loginFails outcome) := by
  unfold loginFails
  cases outcome with
  | netError => exact inferInstance
  | response status access => exact inferInstance

/-! ## Status parser (from `api/models/status_data.py`) -/

/-- A raw JSON-ish value as it appears in the status dictionary handed to
`StatusData.from_dict`: Python's `None`, `bool`, `int`, `float`, `str`, or a
non-scalar value (list/dict), which the coercers treat as unconvertible.
Floats are modelled exactly as rationals. -/
inductive Raw where
  | null
  | bool (b : Bool)
  | int (n : Int)
  | float (q : Rat)
  | str (s : String)
  | nonScalar
  deriving DecidableEq, Repr

/-- One entry of the `invalid_fields` bookkeeping.  The source formats it as
the string `f"{key}={value!r} ({reason})"`; the triple below carries the same
information (key, offending raw value, and reason `"missing"`/`"invalid"`). -/
structure Issue where
  key : String
  value : Raw
  reason : String
  deriving DecidableEq, Repr

/-- Dictionary lookup `key in data` / `data.get(key)` on the raw map (Python
dict literals carry each key at most once). -/
def lookupRaw (data : List (String × Raw)) (k : String) : Option Raw :=
  (data.find? (fun kv => kv.1 = k)).map (fun kv => kv.2)

/-- The check `raw in ("", None)` from the coercion helpers (`0`, `0.0` and
`False` all compare unequal to both `""` and `None` in Python). -/
def isEmptyRaw (raw : Raw) : Bool :=
  raw = .str "" || raw = .null

/-- Python's default `str.strip()` whitespace set (ASCII, which is all that
occurs in telemetry strings). -/
def isPySpace (c : Char) : Bool :=
  c = ' ' || c = '\t' || c = '\n' || c = '\r' || c = '\x0b' || c = '\x0c'

/-- `str.strip()` on the character list: drop whitespace from both ends. -/
def pyStrip (cs : List Char) : List Char :=
  ((cs.dropWhile isPySpace).reverse.dropWhile isPySpace).reverse

/-- `str.lower()` restricted to ASCII (the boolean vocabularies are ASCII). -/
def lowerChar (c : Char) : Char :=
  if 'A' ≤ c && c ≤ 'Z' then Char.ofNat (c.toNat + 32) else c

/-- `raw.strip().lower()` as performed by `_coerce_bool` on string values. -/
def pyStripLower (s : String) : String :=
  String.mk ((pyStrip s.data).map lowerChar)

/-- Digits of a numeral parsed to a natural number; `none` when empty. -/
def digitsVal (cs : List Char) : Option Nat :=
  match cs with
  | [] => none
  | _ => some (cs.foldl (fun acc c => 10 * acc + (c.toNat - '0'.toNat)) 0)

/-- Python `float(s)` on a string: strip surrounding whitespace, optional
sign, an integer part and/or a fractional part (at least one digit overall),
and an optional decimal exponent.  `""`, `"abc"`, `"not-an-int"` fail;
`"3.8"` parses to `19/5`.  (The special forms `inf`/`nan` are not modelled;
no claim and no status field involves them.) -/
def pyParseFloat (s : String) : Option Rat :=
  let cs := pyStrip s.data
  let signed : Bool × List Char :=
    match cs with
    | '-' :: rest => (true, rest)
    | '+' :: rest => (false, rest)
    | rest => (false, rest)
  let neg := signed.1
  let mantExp := signed.2.span (fun c => c ≠ 'e' && c ≠ 'E')
  let mant := mantExp.1
  let intFrac := mant.span (fun c => c ≠ '.')
  let intPart := intFrac.1
  let fracPart := match intFrac.2 with
    | '.' :: rest => some rest
    | _ => none
  let fracDigits := fracPart.getD []
  if !(intPart.all Char.isDigit && fracDigits.all Char.isDigit) then none
  else if intPart.isEmpty && fracDigits.isEmpty then none
  else
    let base : Rat :=
      ((intPart.foldl (fun acc c => 10 * acc + (c.toNat - '0'.toNat)) 0 : Nat) : Rat)
        + (fracDigits.foldl (fun acc c => 10 * acc + (c.toNat - '0'.toNat)) 0 : Nat)
          / ((10 : Rat) ^ fracDigits.length)
    let withExp : Option Rat :=
      match mantExp.2 with
      | [] => some base
      | _ :: expChars =>
          let expSigned : Bool × List Char :=
            match expChars with
            | '-' :: rest => (true, rest)
            | '+' :: rest => (false, rest)
            | rest => (false, rest)
          if !(expSigned.2.all Char.isDigit) then none
          else
            match digitsVal expSigned.2 with
            | none => none
            | some e =>
                some (if expSigned.1 then base / (10 : Rat) ^ e else base * (10 : Rat) ^ e)
    match withExp with
    | none => none
    | some q => some (if neg then -q else q)

/-- Python `int(s)` on a string: strip surrounding whitespace, optional sign,
then decimal digits only (`"3.8"` and `"not-an-int"` fail). -/
def pyParseInt (s : String) : Option Int :=
  let cs := pyStrip s.data
  let signed : Bool × List Char :=
    match cs with
    | '-' :: rest => (true, rest)
    | '+' :: rest => (false, rest)
    | rest => (false, rest)
  if !(signed.2.all Char.isDigit) then none
  else
    match digitsVal signed.2 with
    | none => none
    | some n => some (if signed.1 then -(n : Int) else (n : Int))

/-- Python `float(raw)`: numbers convert directly (`float(True) = 1.0`),
strings are parsed, anything else raises `TypeError` (modelled as `none`). -/
def pyFloat (raw : Raw) : Option Rat :=
  match raw with
  | .bool b => some (if b then 1 else 0)
  | .int n => some (n : Rat)
  | .float q => some q
  | .str s => pyParseFloat s
  | .null => none
  | .nonScalar => none

/-- Python `int(raw)`: bools and ints convert directly, floats truncate toward
zero, strings are parsed as integer numerals, anything else raises (`none`). -/
def pyInt (raw : Raw) : Option Int :=
  match raw with
  | .bool b => some (if b then 1 else 0)
  | .int n => some n
  | .float q => some (if q < 0 then -((-q).floor) else q.floor)
  | .str s => pyParseInt s
  | .null => none
  | .nonScalar => none

/-- `_coerce_float` of `StatusData.from_dict`, applied to the looked-up value
(`none` when the key is absent): an absent key yields `None` silently; an
empty value (`""`/`None`) records a `"missing"` issue; a failed `float(...)`
records an `"invalid"` issue. -/
def coerceFloatRaw (k : String) : Option Raw → Option Rat × List Issue
  | none => (none, [])
  | some raw =>
      if isEmptyRaw raw then (none, [⟨k, raw, "missing"⟩])
      else
        match pyFloat raw with
        | some q => (some q, [])
        | none => (none, [⟨k, raw, "invalid"⟩])

/-- `_coerce_int` of `StatusData.from_dict`, same structure as `_coerce_float`
with Python `int(...)`. -/
def coerceIntRaw (k : String) : Option Raw → Option Int × List Issue
  | none => (none, [])
  | some raw =>
      if isEmptyRaw raw then (none, [⟨k, raw, "missing"⟩])
      else
        match pyInt raw with
        | some n => (some n, [])
        | none => (none, [⟨k, raw, "invalid"⟩])

/-- The recognized true-vocabulary of `_coerce_bool`. -/
def trueVocab : List String := ["true", "1", "yes", "on", "active"]

/-- The recognized false-vocabulary of `_coerce_bool`. -/
def falseVocab : List String := ["false", "0", "no", "off", "inactive"]

/-- `_coerce_bool` of `StatusData.from_dict`, applied to the looked-up value:
absent keys yield `None` silently; `""`/`None` record `"missing"`; a `bool`
passes through; a string is stripped, lowercased and matched against the two
vocabularies; a non-bool number is coerced by `bool(raw)` truthiness; every
remaining value records an `"invalid"` issue. -/
def coerceBoolRaw (k : String) : Option Raw → Option Bool × List Issue
  | none => (none, [])
  | some raw =>
      if isEmptyRaw raw then (none, [⟨k, raw, "missing"⟩])
      else
        match raw with
        | .bool b => (some b, [])
        | .str s =>
            let normalized := pyStripLower s
            if trueVocab.contains normalized then (some true, [])
            else if falseVocab.contains normalized then (some false, [])
            else (none, [⟨k, raw, "invalid"⟩])
        | .int n => (some (decide (n ≠ 0)), [])
        | .float q => (some (decide (q ≠ 0)), [])
        | _ => (none, [⟨k, raw, "invalid"⟩])

/-- `_coerce_float(key)` over the raw map. -/
def coerceFloat (data : List (String × Raw)) (k : String) : Option Rat × List Issue :=
  coerceFloatRaw k (lookupRaw data k)

/-- `_coerce_int(key)` over the raw map. -/
def coerceInt (data : List (String × Raw)) (k : String) : Option Int × List Issue :=
  coerceIntRaw k (lookupRaw data k)

/-- `_coerce_bool(key)` over the raw map. -/
def coerceBool (data : List (String × Raw)) (k : String) : Option Bool × List Issue :=
  coerceBoolRaw k (lookupRaw data k)

/-- The `StatusData` dataclass: every telemetry field independently nullable,
plus the `invalid_fields` bookkeeping. -/
structure StatusData where
  water_flow : Option Rat := none
  supply_temperature : Option Rat := none
  outdoor_temperature : Option Rat := none
  heat_input : Option Rat := none
  actual_temperature : Option Rat := none
  electricity_consumption : Option Rat := none
  heat_output : Option Rat := none
  gas_boiler : Option Bool := none
  thermostat : Option Bool := none
  target_temperature : Option Rat := none
  electric_backup_usage : Option Rat := none
  is_on : Option Bool := none
  fault_code : Option Int := none
  is_connected : Option Bool := none
  top_boiler_temp : Option Rat := none
  bottom_boiler_temp : Option Rat := none
  invalid_fields : List Issue := []
  deriving DecidableEq, Repr

/-- `StatusData.from_dict`: coerce each known field from the raw map; the
`issues` list accumulates in the evaluation order of the constructor call. -/
def fromDict (data : List (String × Raw)) : StatusData :=
  let wf := coerceFloat data "water_flow"
  let st := coerceFloat data "supply_temperature"
  let ot := coerceFloat data "outdoor_temperature"
  let hi := coerceFloat data "heat_input"
  let at_ := coerceFloat data "actual_temperature"
  let ec := coerceFloat data "electricity_consumption"
  let ho := coerceFloat data "heat_output"
  let gb := coerceBool data "gas_boiler"
  let th := coerceBool data "thermostat"
  let tt := coerceFloat data "target_temperature"
  let ebu := coerceFloat data "electric_backup_usage"
  let io := coerceBool data "is_on"
  let fc := coerceInt data "fault_code"
  let ic := coerceBool data "is_connected"
  let tbt := coerceFloat data "top_boiler_temp"
  let bbt := coerceFloat data "bottom_boiler_temp"
  { water_flow := wf.1
    supply_temperature := st.1
    outdoor_temperature := ot.1
    heat_input := hi.1
    actual_temperature := at_.1
    electricity_consumption := ec.1
    heat_output := ho.1
    gas_boiler := gb.1
    thermostat := th.1
    target_temperature := tt.1
    electric_backup_usage := ebu.1
    is_on := io.1
    fault_code := fc.1
    is_connected := ic.1
    top_boiler_temp := tbt.1
    bottom_boiler_temp := bbt.1
    invalid_fields :=
      wf.2 ++ st.2 ++ ot.2 ++ hi.2 ++ at_.2 ++ ec.2 ++ ho.2 ++ gb.2 ++ th.2
        ++ tt.2 ++ ebu.2 ++ io.2 ++ fc.2 ++ ic.2 ++ tbt.2 ++ bbt.2 }

/-! ## Retrying request executor

The repository's current `DeWarmteApiClient._get_with_retry` is exercised by
`tests/test_auth_client.py` (`test_get_with_retry_handles_401`) but the module
revision under `src/` predates it, so the executor itself is modelled from the
specification (§4.2). -/

/-- An observable event of one executor run, in order of occurrence. -/
inductive Ev where
  | ensureTok (force : Bool) (ok : Bool)
  | httpGet (status : Nat)
  | markExpiredEv
  deriving DecidableEq, Repr

/-- The environment of one executor run: the outcome of a non-forced and of a
forced `ensure_token` call, and the status/body of the `i`-th HTTP call. -/
structure RetryEnv where
  ensurePlain : Bool
  ensureForced : Bool
  resp : Nat → Nat × String

/-- Modelled from the spec: the retrying request executor (`_get_with_retry`,
absent from the `src/` module revision).  §4.2: ensure a valid token without
forcing (failure ⇒ `nil`); issue the call; on a 401 call `mark_expired()` then
`ensure_token(force=true)` (failure ⇒ `nil`) and retry the same call exactly
once; a non-200 (including a second 401) ⇒ `nil`; on 200 return the body.
Returns the result together with the ordered event trace. -/
def getWithRetry (env : RetryEnv) : Option String × List Ev :=
  if !env.ensurePlain then
    (none, [.ensureTok false false])
  else
    let r0 := env.resp 0
    if r0.1 = 401 then
      if !env.ensureForced then
        (none, [.ensureTok false true, .httpGet 401, .markExpiredEv,
                .ensureTok true false])
      else
        let r1 := env.resp 1
        ((if r1.1 = 200 then some r1.2 else none),
          [.ensureTok false true, .httpGet 401, .markExpiredEv,
           .ensureTok true true, .httpGet r1.1])
    else
      ((if r0.1 = 200 then some r0.2 else none),
        [.ensureTok false true, .httpGet r0.1])

/-- Number of HTTP calls in an executor event trace. -/
def httpCount (tr : List Ev) : Nat :=
  tr.countP (fun e => match e with | .httpGet _ => true | _ => false)

/-! ## Settings groups and the registry-based updater

`SettingsGroup` is the dataclass of `api/models/settings_group.py`.  The
`SETTING_GROUPS` registry and the key/value-based
`async_update_operation_settings(key, value)` orchestration are referenced by
`select.py` (which imports `SETTING_GROUPS` and calls the two-argument form)
but their module revision is absent from `src/`, so they are modelled from the
specification (§4.4, §6). -/

/-- `SettingsGroup` from `api/models/settings_group.py`: the endpoint and the
ordered list of keys that must be submitted with it as a unit. -/
structure SettingsGroup where
  endpoint : String
  keys : List String
  deriving DecidableEq, Repr

/-- A settings value as submitted in a group payload (string enum values,
numbers, booleans; `ranges` stands for the warm-water range list). -/
inductive Val where
  | str (s : String)
  | num (q : Rat)
  | bool (b : Bool)
  | ranges (rs : List (Nat × Rat × String))
  deriving DecidableEq, Repr

/-- Modelled from the spec: the static `SETTING_GROUPS` registry (absent from
the `src/` revision of `api/models/settings.py`; imported by `select.py`).
§6 lists the group endpoints; the keys are the flat settings fields of
`DeviceOperationSettings` belonging to each group. -/
def SETTING_GROUPS : List SettingsGroup :=
  [ ⟨"heat-curve",
      ["heat_curve_mode", "heating_kind", "heat_curve_s1_outside_temp",
       "heat_curve_s1_target_temp", "heat_curve_s2_outside_temp",
       "heat_curve_s2_target_temp", "heat_curve_fixed_temperature",
       "heat_curve_use_smart_correction"]⟩,
    ⟨"heating-performance",
      ["heating_performance_mode", "heating_performance_backup_temperature"]⟩,
    ⟨"backup-heating", ["backup_heating_mode"]⟩,
    ⟨"sound", ["sound_mode", "sound_compressor_power", "sound_fan_speed"]⟩,
    ⟨"advanced", ["advanced_boost_mode_control", "advanced_thermostat_delay"]⟩,
    ⟨"cooling",
      ["cooling_thermostat_type", "cooling_control_mode",
       "cooling_temperature", "cooling_duration"]⟩,
    ⟨"warm-water", ["warm_water_is_scheduled", "warm_water_ranges"]⟩ ]

/-- Registry lookup: the group a setting key belongs to (every updatable key
belongs to exactly one group, §3). -/
def findGroup (key : String) : Option SettingsGroup :=
  SETTING_GROUPS.find? (fun g => g.keys.contains key)

/-- Modelled from the spec: the cooling-group invariant (§4.4 step 4) applied
to the outgoing `cooling_control_mode`, reading the pre-update
`cooling_thermostat_type`: `heating_only` type coerces a `thermostat` mode to
`heating_only`; `heating_and_cooling` type coerces `cooling_only`/`heating_only`
modes to `thermostat`. -/
def applyCoolingInvariant (thermostatType : Val) (mode : Val) : Val :=
  if thermostatType = .str "heating_only" && mode = .str "thermostat" then
    .str "heating_only"
  else if thermostatType = .str "heating_and_cooling"
      && (mode = .str "cooling_only" || mode = .str "heating_only") then
    .str "thermostat"
  else
    mode

/-- The error raised when the updated key is absent from the registry (§7,
`UnknownSettingError`). -/
inductive UpdateError where
  | unknownSetting (key : String)
  deriving DecidableEq, Repr

/-- Modelled from the spec: the registry-based
`async_update_operation_settings(key, value)` orchestration (absent from the
`src/` revision of `client.py`; called with two arguments by `select.py`).
§4.4: look up `key` in the registry (absent ⇒ `UnknownSettingError`, no
submission); build the payload as `{sibling: current[sibling] for sibling in
group.keys}` from the settings read performed in the same call, overwrite
`key` with the new value; apply the cooling invariant for the cooling group;
submit to the group's endpoint.  The result is the endpoint and payload of the
single submission. -/
def updateOperationSetting (current : String → Val) (key : String) (value : Val) :
    Except UpdateError (String × List (String × Val)) :=
  match findGroup key with
  | none => .error (.unknownSetting key)
  | some g =>
      let payload := g.keys.map (fun k => (k, if k = key then value else current k))
      let payload :=
        if g.endpoint = "cooling" then
          payload.map (fun kv =>
            (kv.1,
              if kv.1 = "cooling_control_mode" then
                applyCoolingInvariant (current "cooling_thermostat_type") kv.2
              else kv.2))
        else payload
      .ok (g.endpoint, payload)

/-! ## Device discovery

Modelled from the spec (§4.3): the type-filtering `discover()` is absent from
`src/` (the `simple_client.py` revision under `src/` predates it; the
multi-device coordinator caller survives in `sensor.py`). -/

/-- One entry of the `GET {base}/customer/products/` result list (§6). -/
structure Product where
  id : String
  type : String
  name : String
  cooling : Bool
  deriving DecidableEq, Repr

/-- The `Device` model from `api/models/device.py` (discovery-relevant
fields). -/
structure Device where
  device_id : String
  product_id : String
  device_type : String
  supports_cooling : Bool
  deriving DecidableEq, Repr

/-- The supported product types (§6: only AO/PT/HC are supported). -/
def supportedDeviceTypes : List String := ["AO", "PT", "HC"]

/-- Modelled from the spec: `DeviceDiscovery.discover()` (absent from `src/`).
§4.3: over the fetched product list (`none` models an unreachable list), keep
only entries whose `type` field is in the supported set and construct one
`Device` per surviving entry with `device_type` taken verbatim from the
product's `type` field; an empty or unreachable list yields the empty list,
never `nil`. -/
def discover (fetched : Option (List Product)) : List Device :=
  match fetched with
  | none => []
  | some products =>
      (products.filter (fun p => supportedDeviceTypes.contains p.type)).map
        (fun p => ⟨p.id, p.name, p.type, p.cooling⟩)

/-- The pre-update read is stable under the cooling invariant (the vendor API
rejects inconsistent combinations, §4.4, so a fetched settings object is a
fixed point of the coercion). -/
def coolingConsistent (current : String → Val) : Prop :=
  applyCoolingInvariant (current "cooling_thermostat_type")
      (current "cooling_control_mode")
    = current "cooling_control_mode"

/-- The raw map of the status-parsing example from §8 of the spec. -/
def statusRawExample : List (String × Raw) :=
  [("supply_temperature", .str ""), ("heat_input", .str "abc"),
   ("electricity_consumption", .str "3.8")]

/-! ## Theorems -/

theorem lookup_map_self (keys : List String) (f : String → Val) (k : String)
    (hk : k ∈ keys) :
    List.lookup k (keys.map (fun x => (x, f x))) = some (f k) := by
  induction keys with
  | nil => simp at hk
  | cons a rest ih =>
    by_cases h : k = a
    · subst h
      simp [List.lookup]
    · have hne : (k == a) = false := by simp [h]
      have hk' : k ∈ rest := by
        rcases List.mem_cons.1 hk with h' | h'
        · exact absurd h' h
        · exact h'
      simp only [List.map_cons, List.lookup, hne]
      exact ih hk'

/-- C5: `needs_refresh(buffer)` is true exactly when no token is stored or
`now >= issued_at + lifetime - buffer`, with default buffer 60 s and default
lifetime 3600 s; and for every buffer `b ≥ 0` it is true immediately after
`mark_expired()`. -/
theorem needsRefresh_spec :
    tokenLifetime = 3600 ∧ refreshBuffer = 60 ∧
    (∀ (st : AuthState) (b now : Int),
        (st.accessToken = none ↔ st.tokenIssuedAt = none) →
        (needsRefresh st (some b) now = true ↔
          st.accessToken = none ∨
            ∃ i, st.tokenIssuedAt = some i ∧ now ≥ i + tokenLifetime - b)) ∧
    (∀ (st : AuthState) (now : Int),
        needsRefresh st none now = needsRefresh st (some 60) now) ∧
    (∀ (st : AuthState) (b now : Int), 0 ≤ b →
        needsRefresh (markExpired st) (some b) now = true) := by
  refine ⟨rfl, rfl, ?_, ?_, ?_⟩
  · intro st b now hinv
    cases hT : st.accessToken with
    | none =>
      have hI : st.tokenIssuedAt = none := hinv.1 hT
      simp [needsRefresh, hT, hI]
    | some t =>
      cases hI : st.tokenIssuedAt with
      | none =>
        have : st.accessToken = none := hinv.2 hI
        rw [hT] at this
        cases this
      | some i =>
        simp only [needsRefresh, hT, hI, Option.getD_some, hT]
        constructor
        · intro h
          exact Or.inr ⟨i, rfl, of_decide_eq_true h⟩
        · intro h
          rcases h with h | ⟨i', hi', hle⟩
          · cases h
          · injection hi' with h
            subst h
            exact decide_eq_true hle
  · intro st now
    cases st.accessToken <;> cases st.tokenIssuedAt <;>
      simp [needsRefresh, refreshBuffer]
  · intro st b now _
    simp [needsRefresh, markExpired]

/-- Witness for C5 at concrete inputs: a token issued at time 0 needs a
refresh at time 3540 with buffer 60, and any state needs one right after
`mark_expired()`. -/
theorem needsRefresh_spec_witness :
    needsRefresh ⟨some "tok", some 0⟩ (some 60) 3540 = true ∧
    needsRefresh (markExpired ⟨some "tok", some 0⟩) (some 0) 0 = true := by
  constructor
  · exact (needsRefresh_spec.2.2.1 ⟨some "tok", some 0⟩ 60 3540 (by simp)).2
      (Or.inr ⟨0, rfl, by decide⟩)
  · exact needsRefresh_spec.2.2.2.2 ⟨some "tok", some 0⟩ 0 0 (by decide)

/-- C4 counterexample: at a state holding a fresh token, a forced
`ensure_token` whose login exchange raises a network error returns `False`
but leaves the stored token and `issued_at` in place, and a subsequent
`needs_refresh()` is still false — the stored token state is not cleared as
the claim asserts. -/
theorem ensureToken_failure_counterexample :
    ensureToken ⟨some "tok", some 0⟩ true none 10 .netError
        = (false, ⟨some "tok", some 0⟩) ∧
    (ensureToken ⟨some "tok", some 0⟩ true none 10 .netError).2.accessToken
        = some "tok" ∧
    needsRefresh (ensureToken ⟨some "tok", some 0⟩ true none 10 .netError).2
        none 10 = false := by
  refine ⟨by decide, by decide, by decide⟩

/-- C4 (amended): whenever `ensure_token` performs the login exchange and it
fails (non-2xx, missing or empty token field, or a network error), it returns
`False` and leaves the stored token state unchanged; in particular, when no
token was stored at call time (as right after `mark_expired()`), none is
stored afterwards and a subsequent `needs_refresh()` is true. -/
theorem ensureToken_failure_amended (st : AuthState) (force : Bool)
    (b : Option Int) (now : Int) (outcome : LoginOutcome)
    (hattempt : force = true ∨ needsRefresh st b now = true)
    (hfail : loginFails outcome) :
    ensureToken st force b now outcome = (false, st) ∧
    (∀ (b' : Option Int) (now' : Int), st.accessToken = none →
      needsRefresh (ensureToken st force b now outcome).2 b' now' = true) := by
  have hcond : (!force && !needsRefresh st b now) = false := by
    rcases hattempt with h | h <;> simp [h]
  have hmain : ensureToken st force b now outcome = (false, st) := by
    unfold ensureToken
    rw [hcond]
    simp only [Bool.false_eq_true, if_false]
    cases outcome with
    | netError => rfl
    | response status access =>
      rcases hfail with hs | ha | ha
      · simp [hs]
      · subst ha
        by_cases h : status = 200 <;> simp [h]
      · subst ha
        by_cases h : status = 200 <;> simp [h]
  refine ⟨hmain, ?_⟩
  intro b' now' hnone
  rw [hmain]
  simp [needsRefresh, hnone]

/-- Witness for C4 (amended): a forced `ensure_token` at the cleared state
whose login exchange answers 500 returns `False`, stores nothing, and
`needs_refresh()` stays true. -/
theorem ensureToken_failure_amended_witness :
    ensureToken ⟨none, none⟩ true none 0 (.response 500 none)
        = (false, ⟨none, none⟩) ∧
    needsRefresh (ensureToken ⟨none, none⟩ true none 0 (.response 500 none)).2
        none 99 = true := by
  have h := ensureToken_failure_amended ⟨none, none⟩ true none 0
    (.response 500 none) (Or.inl rfl) (Or.inl (by decide))
  exact ⟨h.1, h.2 none 99 rfl⟩

/-- C1: every executor run issues at most two HTTP calls; when the first
response is a 401 the executor emits, in order, `mark_expired()` then
`ensure_token(force=true)` and retries the same call exactly once (or returns
`nil` if the forced refresh fails); if the retried response is again a 401 the
result is `nil` — a third attempt is never issued. -/
theorem getWithRetry_spec (env : RetryEnv) :
    httpCount (getWithRetry env).2 ≤ 2 ∧
    (env.ensurePlain = true → (env.resp 0).1 = 401 →
      (env.ensureForced = true →
        (getWithRetry env).2
            = [.ensureTok false true, .httpGet 401, .markExpiredEv,
               .ensureTok true true, .httpGet (env.resp 1).1] ∧
        ((env.resp 1).1 = 401 → (getWithRetry env).1 = none)) ∧
      (env.ensureForced = false →
        (getWithRetry env).1 = none ∧
        (getWithRetry env).2
            = [.ensureTok false true, .httpGet 401, .markExpiredEv,
               .ensureTok true false])) := by
  constructor
  · by_cases hp : env.ensurePlain <;> by_cases h0 : (env.resp 0).1 = 401 <;>
      by_cases hf : env.ensureForced <;>
        simp [getWithRetry, httpCount, hp, h0, hf, List.countP, List.countP.go]
  · intro hp h0
    constructor
    · intro hf
      constructor
      · simp [getWithRetry, hp, h0, hf]
      · intro h1
        simp [getWithRetry, hp, h0, hf, h1]
    · intro hf
      constructor <;> simp [getWithRetry, hp, h0, hf]

/-- Witness for C1: a run answering 401 to both calls ends with `nil`, two
HTTP calls, and the trace 401 / mark_expired / forced refresh / retry 401. -/
theorem getWithRetry_spec_witness :
    (getWithRetry ⟨true, true, fun _ => (401, "body")⟩).1 = none ∧
    httpCount (getWithRetry ⟨true, true, fun _ => (401, "body")⟩).2 ≤ 2 ∧
    (getWithRetry ⟨true, true, fun _ => (401, "body")⟩).2
        = [.ensureTok false true, .httpGet 401, .markExpiredEv,
           .ensureTok true true, .httpGet 401] := by
  have h := getWithRetry_spec ⟨true, true, fun _ => (401, "body")⟩
  have h2 := (h.2 rfl rfl).1 rfl
  exact ⟨h2.2 rfl, h.1, h2.1⟩

/-- C2: for every setting key belonging to a settings group, a successful
`update(device, key, value)` submits to the group's endpoint a payload
containing every key of that group, with each sibling key carrying the value
of the settings read performed in the same call, so that only the updated key
differs from the pre-update read (the read being consistent under the cooling
invariant, which the vendor enforces on stored settings). -/
theorem updateOperationSetting_group_payload (current : String → Val)
    (key : String) (value : Val) (g : SettingsGroup)
    (hg : findGroup key = some g)
    (hstable : g.endpoint = "cooling" → coolingConsistent current) :
    ∃ payload,
      updateOperationSetting current key value = .ok (g.endpoint, payload) ∧
      payload.map Prod.fst = g.keys ∧
      key ∈ g.keys ∧
      (∀ k ∈ g.keys, k ≠ key → List.lookup k payload = some (current k)) := by
  have hg' : SETTING_GROUPS.find? (fun gr => gr.keys.contains key) = some g := hg
  have hcont := List.find?_some hg'
  have hmem : key ∈ g.keys := by simpa using hcont
  by_cases hend : g.endpoint = "cooling"
  · refine ⟨g.keys.map (fun k => (k,
        if k = "cooling_control_mode" then
          applyCoolingInvariant (current "cooling_thermostat_type")
            (if k = key then value else current k)
        else (if k = key then value else current k))), ?_, ?_, hmem, ?_⟩
    · unfold updateOperationSetting
      rw [hg]
      simp only [hend, if_true]
      rw [List.map_map]
      rfl
    · rw [List.map_map]
      exact List.map_id g.keys
    · intro k hk hne
      rw [lookup_map_self _ _ _ hk]
      have hs := hstable hend
      unfold coolingConsistent at hs
      by_cases hc : k = "cooling_control_mode"
      · subst hc
        simp [hne, hs]
      · simp [hc, hne]
  · refine ⟨g.keys.map (fun k => (k, if k = key then value else current k)),
      ?_, ?_, hmem, ?_⟩
    · unfold updateOperationSetting
      rw [hg]
      simp only [hend, if_false]
    · rw [List.map_map]
      exact List.map_id g.keys
    · intro k hk hne
      rw [lookup_map_self _ _ _ hk]
      simp [hne]

/-- Witness for C2: updating `sound_mode` submits to the `sound` endpoint a
payload carrying all three sound keys. -/
theorem updateOperationSetting_group_payload_witness :
    ∃ payload,
      updateOperationSetting (fun _ => Val.str "x") "sound_mode"
          (Val.str "silent") = .ok ("sound", payload) ∧
      payload.map Prod.fst
          = ["sound_mode", "sound_compressor_power", "sound_fan_speed"] ∧
      "sound_mode" ∈ ["sound_mode", "sound_compressor_power", "sound_fan_speed"] ∧
      (∀ k ∈ ["sound_mode", "sound_compressor_power", "sound_fan_speed"],
        k ≠ "sound_mode" → List.lookup k payload = some (Val.str "x")) :=
  updateOperationSetting_group_payload (fun _ => Val.str "x") "sound_mode"
    (Val.str "silent") ⟨"sound", ["sound_mode", "sound_compressor_power",
      "sound_fan_speed"]⟩ (by decide) (fun h => absurd h (by decide))

/-- C3: an update whose key is absent from the `SETTING_GROUPS` registry fails
with the explicit unknown-setting error and performs no submission. -/
theorem updateOperationSetting_unknown_key (current : String → Val)
    (key : String) (value : Val)
    (h : ∀ g ∈ SETTING_GROUPS, g.keys.contains key = false) :
    updateOperationSetting current key value = .error (.unknownSetting key) ∧
    ∀ r, updateOperationSetting current key value ≠ .ok r := by
  have hf : findGroup key = none := by
    apply List.find?_eq_none.2
    intro g hgmem hc
    have hfalse := h g hgmem
    rw [hc] at hfalse
    cases hfalse
  have hmain : updateOperationSetting current key value
      = .error (.unknownSetting key) := by
    unfold updateOperationSetting
    rw [hf]
  refine ⟨hmain, ?_⟩
  intro r hr
  rw [hmain] at hr
  cases hr

/-- Witness for C3: the key `"not_a_setting"` belongs to no group and errors
out. -/
theorem updateOperationSetting_unknown_key_witness :
    updateOperationSetting (fun _ => Val.str "x") "not_a_setting"
        (Val.str "v") = .error (.unknownSetting "not_a_setting") ∧
    ∀ r, updateOperationSetting (fun _ => Val.str "x") "not_a_setting"
        (Val.str "v") ≠ .ok r :=
  updateOperationSetting_unknown_key (fun _ => Val.str "x") "not_a_setting"
    (Val.str "v") (by decide)

theorem cooling_payload_mode (current : String → Val) (key : String)
    (value : Val)
    (hk : key ∈ ["cooling_thermostat_type", "cooling_control_mode",
      "cooling_temperature", "cooling_duration"]) :
    ∃ payload,
      updateOperationSetting current key value = .ok ("cooling", payload) ∧
      List.lookup "cooling_control_mode" payload
        = some (applyCoolingInvariant (current "cooling_thermostat_type")
            (if key = "cooling_control_mode" then value
             else current "cooling_control_mode")) := by
  simp only [List.mem_cons, List.not_mem_nil, or_false] at hk
  rcases hk with rfl | rfl | rfl | rfl <;>
    exact ⟨_, rfl, rfl⟩

/-- C6: for every update touching the cooling group, reading the pre-update
`cooling_thermostat_type`: a `heating_only` type turns an outgoing
`thermostat` control mode into `heating_only` in the submitted payload, and a
`heating_and_cooling` type turns an outgoing `cooling_only` or `heating_only`
mode into `thermostat`. -/
theorem updateOperationSetting_cooling_invariant (current : String → Val)
    (key : String) (value : Val)
    (hk : key ∈ ["cooling_thermostat_type", "cooling_control_mode",
      "cooling_temperature", "cooling_duration"]) :
    (current "cooling_thermostat_type" = .str "heating_only" →
      (if key = "cooling_control_mode" then value
       else current "cooling_control_mode") = .str "thermostat" →
      ∃ payload,
        updateOperationSetting current key value = .ok ("cooling", payload) ∧
        List.lookup "cooling_control_mode" payload
          = some (.str "heating_only")) ∧
    (current "cooling_thermostat_type" = .str "heating_and_cooling" →
      ((if key = "cooling_control_mode" then value
        else current "cooling_control_mode") = .str "cooling_only" ∨
       (if key = "cooling_control_mode" then value
        else current "cooling_control_mode") = .str "heating_only") →
      ∃ payload,
        updateOperationSetting current key value = .ok ("cooling", payload) ∧
        List.lookup "cooling_control_mode" payload
          = some (.str "thermostat")) := by
  obtain ⟨payload, hupd, hmode⟩ := cooling_payload_mode current key value hk
  constructor
  · intro hT hM
    refine ⟨payload, hupd, ?_⟩
    rw [hmode, hT, hM]
    rfl
  · intro hT hM
    refine ⟨payload, hupd, ?_⟩
    rcases hM with hM | hM <;>
      · rw [hmode, hT, hM]
        rfl

/-- Witness for C6: with `cooling_thermostat_type = heating_only`, submitting
`cooling_control_mode = thermostat` yields a payload carrying
`cooling_control_mode = heating_only`. -/
theorem updateOperationSetting_cooling_invariant_witness :
    ∃ payload,
      updateOperationSetting
          (fun k => if k = "cooling_thermostat_type" then Val.str "heating_only"
                    else Val.str "thermostat")
          "cooling_control_mode" (Val.str "thermostat")
        = .ok ("cooling", payload) ∧
      List.lookup "cooling_control_mode" payload
        = some (.str "heating_only") :=
  (updateOperationSetting_cooling_invariant
      (fun k => if k = "cooling_thermostat_type" then Val.str "heating_only"
                else Val.str "thermostat")
      "cooling_control_mode" (Val.str "thermostat")
      (by decide)).1 (by decide) (by decide)

/-- C7: discovery keeps exactly the product entries whose `type` is in the
supported set {AO, PT, HC}, takes `device_type` verbatim from the `type`
field, returns the empty list (never `nil`) for an empty or unreachable
product list, and over types {AO, XYZ, HC} yields exactly the two devices AO
and HC. -/
theorem discover_spec :
    discover none = [] ∧
    discover (some []) = [] ∧
    (∀ products : List Product,
      discover (some products)
        = (products.filter
            (fun p => supportedDeviceTypes.contains p.type)).map
            (fun p => ⟨p.id, p.name, p.type, p.cooling⟩)) ∧
    (∀ products : List Product,
      (discover (some products)).map Device.device_type
        = ((products.filter
            (fun p => supportedDeviceTypes.contains p.type)).map Product.type)) ∧
    discover (some [⟨"id1", "AO", "Pompe 1", false⟩,
        ⟨"id2", "XYZ", "Pompe 2", false⟩, ⟨"id3", "HC", "Pompe 3", true⟩])
      = [⟨"id1", "Pompe 1", "AO", false⟩, ⟨"id3", "Pompe 3", "HC", true⟩] := by
  refine ⟨rfl, rfl, fun products => rfl, fun products => ?_, by decide⟩
  rw [discover, List.map_map]
  rfl

unseal Rat.ofScientific Rat.mul Rat.inv Rat.add in
/-- C8: parsing `{"supply_temperature": "", "heat_input": "abc",
"electricity_consumption": "3.8"}` returns normally with
`supply_temperature = None`, `heat_input = None`,
`electricity_consumption = 3.8`, and `invalid_fields` referencing
`supply_temperature` and `heat_input` but not `electricity_consumption`. -/
theorem fromDict_mixed_example :
    (fromDict statusRawExample).supply_temperature = none ∧
    (fromDict statusRawExample).heat_input = none ∧
    (fromDict statusRawExample).electricity_consumption = some (3.8 : Rat) ∧
    (∃ i ∈ (fromDict statusRawExample).invalid_fields,
      i.key = "supply_temperature") ∧
    (∃ i ∈ (fromDict statusRawExample).invalid_fields,
      i.key = "heat_input") ∧
    (∀ i ∈ (fromDict statusRawExample).invalid_fields,
      i.key ≠ "electricity_consumption") := by
  decide

/-- C9 counterexample: over the empty raw map every key is absent, yet
`from_dict` records nothing in `invalid_fields` — an absent key is *not*
recorded as `"missing"` as the claim asserts. -/
theorem fromDict_absent_silent_counterexample :
    (fromDict []).supply_temperature = none ∧
    (fromDict []).water_flow = none ∧
    (fromDict []).invalid_fields = [] := by
  decide

unseal Rat.mul Rat.inv Rat.add in
/-- C9 (amended): a known field whose key is present with an empty value
(`""` or `None`) is set to null and recorded in `invalid_fields` as
`"missing"` while the rest of the record still parses; a field whose key is
absent from the raw map is set to null silently, with no `invalid_fields`
entry. -/
theorem coerce_missing_amended :
    (∀ (data : List (String × Raw)) (k : String),
      lookupRaw data k = none →
        coerceFloat data k = (none, []) ∧
        coerceInt data k = (none, []) ∧
        coerceBool data k = (none, [])) ∧
    (∀ (data : List (String × Raw)) (k : String) (raw : Raw),
      lookupRaw data k = some raw → isEmptyRaw raw = true →
        coerceFloat data k = (none, [⟨k, raw, "missing"⟩]) ∧
        coerceInt data k = (none, [⟨k, raw, "missing"⟩]) ∧
        coerceBool data k = (none, [⟨k, raw, "missing"⟩])) ∧
    ((fromDict [("supply_temperature", .str ""), ("heat_input", .str "2.5")]
        ).supply_temperature = none ∧
     (fromDict [("supply_temperature", .str ""), ("heat_input", .str "2.5")]
        ).heat_input = some (5/2) ∧
     (fromDict [("supply_temperature", .str ""), ("heat_input", .str "2.5")]
        ).invalid_fields = [⟨"supply_temperature", .str "", "missing"⟩]) := by
  refine ⟨?_, ?_, by decide⟩
  · intro data k h
    exact ⟨by simp [coerceFloat, coerceFloatRaw, h],
      by simp [coerceInt, coerceIntRaw, h],
      by simp [coerceBool, coerceBoolRaw, h]⟩
  · intro data k raw h hempty
    exact ⟨by simp [coerceFloat, coerceFloatRaw, h, hempty],
      by simp [coerceInt, coerceIntRaw, h, hempty],
      by simp [coerceBool, coerceBoolRaw, h, hempty]⟩

/-- Witness for C9 (amended): an absent key coerces silently; a present-but-
empty key records one `"missing"` entry. -/
theorem coerce_missing_amended_witness :
    coerceFloat [] "water_flow" = (none, []) ∧
    coerceFloat [("heat_input", .str "")] "heat_input"
      = (none, [⟨"heat_input", .str "", "missing"⟩]) :=
  ⟨(coerce_missing_amended.1 [] "water_flow" rfl).1,
   (coerce_missing_amended.2.1 [("heat_input", .str "")] "heat_input"
      (.str "") rfl rfl).1⟩

/-- C10: `_coerce_bool` coerces a non-bool number by truthiness (nonzero ⇒
true, zero ⇒ false) without recording anything; a value is recorded as
`"invalid"` only when it is neither a bool, nor a number, nor a string in a
recognized vocabulary. -/
theorem coerceBool_truthiness :
    (∀ (data : List (String × Raw)) (k : String) (n : Int),
      lookupRaw data k = some (.int n) →
        coerceBool data k = (some (decide (n ≠ 0)), [])) ∧
    (∀ (data : List (String × Raw)) (k : String) (q : Rat),
      lookupRaw data k = some (.float q) →
        coerceBool data k = (some (decide (q ≠ 0)), [])) ∧
    (∀ (data : List (String × Raw)) (k : String) (raw : Raw),
      lookupRaw data k = some raw →
      (∃ i ∈ (coerceBool data k).2, i.reason = "invalid") →
        (∀ b, raw ≠ .bool b) ∧ (∀ n, raw ≠ .int n) ∧ (∀ q, raw ≠ .float q) ∧
        (∀ s, raw = .str s →
          pyStripLower s ∉ trueVocab ∧ pyStripLower s ∉ falseVocab)) ∧
    ((fromDict [("is_on", .int 2), ("is_connected", .int 0)]).is_on
        = some true ∧
     (fromDict [("is_on", .int 2), ("is_connected", .int 0)]).is_connected
        = some false ∧
     (fromDict [("is_on", .int 2), ("is_connected", .int 0)]).invalid_fields
        = []) := by
  refine ⟨?_, ?_, ?_, by decide⟩
  · intro data k n h
    simp [coerceBool, coerceBoolRaw, h, isEmptyRaw]
  · intro data k q h
    simp [coerceBool, coerceBoolRaw, h, isEmptyRaw]
  · intro data k raw h hexists
    cases raw with
    | bool b => simp [coerceBool, coerceBoolRaw, h, isEmptyRaw] at hexists
    | int n => simp [coerceBool, coerceBoolRaw, h, isEmptyRaw] at hexists
    | float q => simp [coerceBool, coerceBoolRaw, h, isEmptyRaw] at hexists
    | null =>
      simp [coerceBool, coerceBoolRaw, h, isEmptyRaw] at hexists
    | nonScalar =>
      refine ⟨by simp, by simp, by simp, ?_⟩
      intro s heq
      cases heq
    | str s =>
      refine ⟨by simp, by simp, by simp, ?_⟩
      intro s' heq
      injection heq with hss
      subst hss
      by_cases hs : s = ""
      · subst hs
        constructor <;> intro hv <;> simp [pyStripLower, pyStrip, isPySpace,
          trueVocab, falseVocab] at hv
      · have hemp : isEmptyRaw (.str s) = false := by simp [isEmptyRaw, hs]
        by_cases ht : pyStripLower s ∈ trueVocab
        · simp [coerceBool, coerceBoolRaw, h, hemp, ht] at hexists
        · by_cases hf : pyStripLower s ∈ falseVocab
          · simp [coerceBool, coerceBoolRaw, h, hemp, ht, hf] at hexists
          · exact ⟨ht, hf⟩

/-- Witness for C10: the raw value `2` coerces to `True` with no
`invalid_fields` entry. -/
theorem coerceBool_truthiness_witness :
    coerceBool [("is_on", Raw.int 2)] "is_on" = (some true, []) := by
  have h := coerceBool_truthiness.1 [("is_on", Raw.int 2)] "is_on" 2 rfl
  simpa using h

end DeWarmte
